import Mathlib

/-!
Verification development for the video compilation editor
(`video_compilation_editor.py`).

The Python source drives an external encoder (ffmpeg) through
subprocesses.  We embed the pure decision logic shallowly:

* ffmpeg filter strings are comma-separated chains of atomic filters, so
  a `vf` string is modelled as a `List AtomFilter`; string concatenation
  with commas in the source corresponds to list append here.
* rational numbers stand in for Python floats (every numeric decision the
  claims touch — comparisons with `1.0`, `min`/`max` clamps, sums of
  durations, division by a speed factor — is exact arithmetic in the
  source ranges involved);
* the filesystem and the encoder subprocess are oracles (`Fs`,
  `EncodeOutcome`): functions and records supplying what `os.path.exists`,
  `os.path.getsize`, the abort flag poll, the exit code and the output
  size would return; each worker function becomes a pure function of its
  arguments and these oracles, returning its tagged result together with
  a trace of the side effects it performed (subprocess spawned, files
  unlinked).
* Python `hash` is kept abstract as an explicit `strHash : String → Nat`
  parameter; no theorem below depends on anything but its determinism.
-/

/-- Scratch directory for cached per-item previews (module-level
`PREVIEW_DIR`).  The concrete prefix is irrelevant to every claim; only
the fact that the filename is a deterministic function of the item state
matters. -/
def PREVIEW_DIR : String := "/tmp/video_editor_temp/previews"

/-- One atomic ffmpeg filter, the unit between commas of a `-vf` /
`-filter_complex` video chain in the source.  Each constructor records
the parameters the source interpolates into the corresponding
f-string. -/
inductive AtomFilter where
  /-- `setpts=I*PTS` where `I` is the stored coefficient (the source
  writes `1/speed_factor`). -/
  | setpts (coeff : ℚ)
  /-- `atempo=V`. -/
  | atempo (v : ℚ)
  /-- `hue=s=0` (grayscale). -/
  | hue_s0
  /-- `colorchannelmixer=...` (sepia). -/
  | sepia
  /-- `vignette=PI/4`. -/
  | vignette
  /-- `boxblur=A:1`. -/
  | boxblur (amount : ℚ)
  /-- `unsharp=5:5:1.5:5:5:0.0` (sharpen). -/
  | unsharp
  /-- `noise=alls=20:allf=t`. -/
  | noise
  /-- `eq=contrast=C`. -/
  | eq_contrast (c : ℚ)
  /-- `eq=brightness=B`. -/
  | eq_brightness (b : ℚ)
  /-- `vidstabtransform=...` (stabilize). -/
  | vidstab
  /-- `transpose=N` with N ∈ 1, 2. -/
  | transpose (n : Nat)
  /-- `scale=W:-2` (width-pinned scale, preview paths use 480). -/
  | scaleW (w : Int)
  /-- `scale=-2:H` (height-pinned scale, export path uses 720). -/
  | scaleH (h : Int)
  /-- `fps=N`. -/
  | fps (n : Nat)
  /-- `rotate=D*pi/180`, recorded by the degree value `D` the source
  multiplies by pi/180 (image branches only). -/
  | rotateDeg (deg : Int)
deriving DecidableEq

/-- The `parameters` dict of a `VideoEffect`, restricted to the keys the
source ever reads: `factor` (speed), `name` (filter), `amount`
(blur/contrast/brightness).  A missing key is `none`, matching
`parameters.get(key, default)`. -/
structure EffectParams where
  factor : Option ℚ := none
  name : Option String := none
  amount : Option ℚ := none
deriving DecidableEq

/-- `VideoEffect.__init__`: an effect is its type tag plus parameters. -/
structure VideoEffect where
  effect_type : String := "none"
  params : EffectParams := {}
deriving DecidableEq

namespace VideoEffect

/-- `VideoEffect.get_ffmpeg_filter` (source lines 2724-2774), returning
the filter chain as a list of atoms ("" becomes `[]`, the two-atom speed
string becomes a two-element list). -/
def get_ffmpeg_filter (e : VideoEffect) : List AtomFilter :=
  if e.effect_type = "none" then []
  else if e.effect_type = "speed" then
    let speed_factor := e.params.factor.getD 1
    if speed_factor = 1 then []
    else if speed_factor > 1 then
      [AtomFilter.setpts (1 / speed_factor), AtomFilter.atempo (min 2 speed_factor)]
    else
      [AtomFilter.setpts (1 / speed_factor), AtomFilter.atempo (max (1/2) speed_factor)]
  else if e.effect_type = "filter" then
    match e.params.name.getD "" with
    | "grayscale" => [AtomFilter.hue_s0]
    | "sepia" => [AtomFilter.sepia]
    | "vignette" => [AtomFilter.vignette]
    | "blur" => [AtomFilter.boxblur (e.params.amount.getD 5)]
    | "sharpen" => [AtomFilter.unsharp]
    | "noise" => [AtomFilter.noise]
    | "contrast" => [AtomFilter.eq_contrast (e.params.amount.getD (3/2))]
    | "brightness" => [AtomFilter.eq_brightness (e.params.amount.getD (1/10))]
    | _ => []
  else if e.effect_type = "stabilize" then [AtomFilter.vidstab]
  else []

end VideoEffect

/-- `MediaItem` state: the fields of `MediaItem.__init__` (plus the
probed `rotation` set by the `VideoClip` / `ImageItem` constructors).
`end_time`/`duration` are `Option` because Python initializes them to
`None`. -/
structure MediaItem where
  file_path : String
  is_image : Bool := false
  display_duration : ℚ := 5
  start_time : ℚ := 0
  end_time : Option ℚ := none
  duration : Option ℚ := none
  rotation : Int := 0
  manual_rotation : Int := 0
  preview_file : Option String := none
  preview_status : String := "none"
  item_id : String := ""
  effects : List VideoEffect := []
  playback_speed : ℚ := 1
  has_pending_changes : Bool := false
deriving DecidableEq

/-- Python truthiness-or on two optional numbers: `a or b` where a float
`0.0` and `None` are both falsy (used for `end_time or duration`). -/
def pyOr (a b : Option ℚ) : Option ℚ :=
  match a with
  | some x => if x = 0 then b else some x
  | none => b

/-- Python `int()` on a rational: truncation toward zero. -/
def pyInt (q : ℚ) : Int := q.num.tdiv (q.den : Int)

/-- Deterministic rendering of a rational into a filename component,
standing in for Python float formatting.  The claims settled below never
depend on the concrete digits, only on the rendering being a function of
the value. -/
def ratRepr (q : ℚ) : String := toString q.num ++ "d" ++ toString q.den

/-- Rendering of an optional rational; `None` prints as Python does. -/
def optRatRepr (q : Option ℚ) : String :=
  match q with
  | none => "None"
  | some x => ratRepr x

/-- `os.path.basename` followed by `os.path.splitext`: the final path
component with its last extension removed. -/
def basenameNoExt (p : String) : String :=
  let name := (p.splitOn "/").getLastD ""
  let parts := name.splitOn "."
  if parts.length ≤ 1 then name else String.intercalate "." parts.dropLast

namespace MediaItem

/-- `MediaItem.get_preview_filename` (source lines 157-181): the cache
signature, encoded into the artifact filename.  `strHash` abstracts the
Python builtin `hash`; note the source hashes only the underscore-joined
`effect_type` tags, never the effect parameters. -/
def get_preview_filename (strHash : String → Nat) (m : MediaItem) : String :=
  let base := (basenameNoExt m.file_path).replace " " "_"
  let effects_hash :=
    if m.effects ≠ [] then
      "_fx" ++ toString (strHash (String.intercalate "_" (m.effects.map (fun e => e.effect_type))) % 10000)
    else ""
  let speed_str := "_sp" ++ toString (pyInt (m.playback_speed * 100))
  if m.is_image then
    PREVIEW_DIR ++ "/" ++ base ++ "_" ++ m.item_id ++ "_d" ++ ratRepr m.display_duration
      ++ "_r" ++ toString m.manual_rotation ++ effects_hash ++ ".mp4"
  else
    PREVIEW_DIR ++ "/" ++ base ++ "_" ++ m.item_id ++ "_s" ++ ratRepr m.start_time
      ++ "_e" ++ optRatRepr (pyOr m.end_time m.duration)
      ++ "_r" ++ toString m.manual_rotation ++ effects_hash ++ speed_str ++ ".mp4"

/-- `MediaItem.get_effects_filter_string` (source lines 194-212): the
concatenated effect filters, with an implicit speed effect appended when
`playback_speed` differs from 1 and no explicit speed effect is
present. -/
def get_effects_filter_string (m : MediaItem) : List AtomFilter :=
  let filters := (m.effects.map VideoEffect.get_ffmpeg_filter).flatten
  if m.playback_speed ≠ 1 ∧ ¬ m.effects.any (fun e => e.effect_type = "speed") then
    filters ++ (VideoEffect.get_ffmpeg_filter
      { effect_type := "speed", params := { factor := some m.playback_speed } })
  else filters

end MediaItem

/-!
Filter-graph builders.  Each worker path builds its `-vf` string the
same way: start from the scale/fps normalization base, prepend the
rotation filter when the resolved total rotation is nonzero, then
prepend the effects chain when it is nonempty.  In `create_preview` and
`export_video` the video branch assigns `rotation_filter` only in the
90/180/270 cases and then reads it unconditionally, so an unresolvable
nonzero total rotation raises `NameError`; `process_all_clips`
initializes `rotation_filter = ""` first and therefore never raises.
The raising branches are modelled with `Except`.
-/

/-- Rotation resolution of the `create_preview` / `export_video` video
branches (source lines 676-687 and 1782-1793): total rotation 0 adds no
filter, 90/180/270 map to transpose chains, and any other nonzero value
reads the unassigned `rotation_filter` local, raising `NameError`. -/
def rotationFilters (t : Int) : Except String (List AtomFilter) :=
  if t = 0 then Except.ok []
  else if t = 90 then Except.ok [AtomFilter.transpose 1]
  else if t = 180 then Except.ok [AtomFilter.transpose 2, AtomFilter.transpose 2]
  else if t = 270 then Except.ok [AtomFilter.transpose 2]
  else Except.error "NameError: rotation_filter is not defined"

/-- Rotation resolution of the `process_all_clips` video branch (source
lines 904-915): identical cases, but `rotation_filter` is initialized to
the empty string, so an unmatched nonzero total rotation silently adds
no filter. -/
def rotationFiltersDefaulted (t : Int) : List AtomFilter :=
  if t = 0 then []
  else if t = 90 then [AtomFilter.transpose 1]
  else if t = 180 then [AtomFilter.transpose 2, AtomFilter.transpose 2]
  else if t = 270 then [AtomFilter.transpose 2]
  else []

/-- Total rotation of an item: `(rotation + manual_rotation) % 360`
(Python `%`, i.e. Euclidean remainder, which Int.emod matches). -/
def totalRotation (m : MediaItem) : Int :=
  (m.rotation + m.manual_rotation) % 360

/-- Video `-vf` chain built by `create_preview` (source lines 672-691):
base `scale=480:-2,fps=24`, rotation prepended, then effects
prepended. -/
def createPreviewVideoVf (m : MediaItem) : Except String (List AtomFilter) :=
  let base : List AtomFilter := [AtomFilter.scaleW 480, AtomFilter.fps 24]
  match rotationFilters (totalRotation m) with
  | Except.error e => Except.error e
  | Except.ok rot =>
    let vf := rot ++ base
    let eff := m.get_effects_filter_string
    Except.ok (if eff ≠ [] then eff ++ vf else vf)

/-- Image `-vf` chain built by `create_preview` (source lines 637-648):
base `scale=480:-2`, `rotate` prepended when the manual rotation is
nonzero, then effects prepended. -/
def createPreviewImageVf (m : MediaItem) : List AtomFilter :=
  let base : List AtomFilter := [AtomFilter.scaleW 480]
  let vf := if m.manual_rotation ≠ 0 then AtomFilter.rotateDeg m.manual_rotation :: base else base
  let eff := m.get_effects_filter_string
  if eff ≠ [] then eff ++ vf else vf

/-- Video `-vf` chain built by `process_all_clips` (source lines
899-919): base `scale=480:-2,fps=24`, defaulted rotation prepended, then
effects prepended.  Total: no exception is possible here. -/
def processAllClipsVideoVf (m : MediaItem) : List AtomFilter :=
  let base : List AtomFilter := [AtomFilter.scaleW 480, AtomFilter.fps 24]
  let vf := rotationFiltersDefaulted (totalRotation m) ++ base
  let eff := m.get_effects_filter_string
  if eff ≠ [] then eff ++ vf else vf

/-- Image `-vf` chain built by `process_all_clips` (source lines
864-875): base `scale=480:-2,fps=24`, `rotate` prepended when the manual
rotation is nonzero, then effects prepended. -/
def processAllClipsImageVf (m : MediaItem) : List AtomFilter :=
  let base : List AtomFilter := [AtomFilter.scaleW 480, AtomFilter.fps 24]
  let vf := if m.manual_rotation ≠ 0 then AtomFilter.rotateDeg m.manual_rotation :: base else base
  let eff := m.get_effects_filter_string
  if eff ≠ [] then eff ++ vf else vf

/-- Video `-vf` chain built by `export_video` (source lines 1779-1797):
base `scale=-2:720`, rotation prepended (same `NameError` hazard as
`create_preview`), then effects prepended. -/
def exportVideoVf (m : MediaItem) : Except String (List AtomFilter) :=
  let base : List AtomFilter := [AtomFilter.scaleH 720]
  match rotationFilters (totalRotation m) with
  | Except.error e => Except.error e
  | Except.ok rot =>
    let vf := rot ++ base
    let eff := m.get_effects_filter_string
    Except.ok (if eff ≠ [] then eff ++ vf else vf)

/-- Image `-vf` chain built by `export_video` (source lines 1734-1744). -/
def exportImageVf (m : MediaItem) : List AtomFilter :=
  let base : List AtomFilter := [AtomFilter.scaleH 720]
  let vf := if m.manual_rotation ≠ 0 then AtomFilter.rotateDeg m.manual_rotation :: base else base
  let eff := m.get_effects_filter_string
  if eff ≠ [] then eff ++ vf else vf

/-- The `-vf` chain `create_preview` attempts to build for an item,
dispatching on `is_image` (image branch total, video branch may raise). -/
def createPreviewVf (m : MediaItem) : Except String (List AtomFilter) :=
  if m.is_image then Except.ok (createPreviewImageVf m) else createPreviewVideoVf m

/-!
Worker model for `ProcessingWorker.create_preview` (source lines
602-789).  The filesystem and the single encoder run are oracles; the
returned record carries the tagged result, the updated item, whether an
encoder subprocess was spawned, and the list of files the call
unlinked.
-/

/-- Tagged result of a worker call: the source returns either the
artifact path, the string "Aborted", or a string starting with
"Error:". -/
inductive PResult where
  | ok (path : String)
  | aborted
  | error (msg : String)
deriving DecidableEq

/-- Filesystem oracle: what `os.path.exists` and `os.path.getsize`
answer during the call. -/
structure Fs where
  fileExists : String → Bool
  fileSize : String → Nat

/-- Oracle for one encoder subprocess run inside `create_preview`:
whether the abort flag is observed while reading its status lines, the
exit code, and existence/size of the output file afterwards. -/
structure EncodeOutcome where
  abortDuringRun : Bool
  returncode : Int
  outExists : Bool
  outSize : Nat

/-- Trace of one `create_preview` call. -/
structure PreviewRun where
  result : PResult
  item : MediaItem
  spawned : Bool
  deleted : List String

/-- The encode phase of `create_preview` (source lines 628-789): build
the filter chain (a `NameError` from the video rotation branch is caught
by the enclosing `except`, which sets the error status and returns an
error string without spawning), then spawn ffmpeg and dispatch on the
abort poll, the exit code and the output check.  On abort the source
terminates the process and returns "Aborted" without unlinking the
partial output file (lines 733-737). -/
def runEncodePhase (preview_file : String) (m : MediaItem) (enc : EncodeOutcome)
    (deleted : List String) : PreviewRun :=
  match createPreviewVf m with
  | Except.error e =>
      ⟨PResult.error e, { m with preview_status := "error" }, false, deleted⟩
  | Except.ok _ =>
      if enc.abortDuringRun then
        ⟨PResult.aborted, { m with preview_status := "none" }, true, deleted⟩
      else if enc.returncode ≠ 0 then
        ⟨PResult.error "ffmpeg process failed", { m with preview_status := "error" },
          true, deleted⟩
      else if enc.outExists ∧ enc.outSize > 1000 then
        ⟨PResult.ok preview_file,
          { m with preview_file := some preview_file, preview_status := "ready",
                   has_pending_changes := false },
          true, deleted⟩
      else
        ⟨PResult.error "Created preview file is invalid",
          { m with preview_status := "error" }, true, deleted⟩

/-- `ProcessingWorker.create_preview` (source lines 602-789).  `abort0`
is the abort flag at entry; the cache check (lines 610-625) returns the
stored artifact when it exists on disk above the 1000-byte sanity
threshold, deletes it and falls through to re-encoding when it is
undersized, and otherwise proceeds to the encode phase. -/
def create_preview (strHash : String → Nat) (abort0 : Bool) (m : MediaItem)
    (fs : Fs) (enc : EncodeOutcome) : PreviewRun :=
  if abort0 then ⟨PResult.aborted, m, false, []⟩
  else
    let preview_file := m.get_preview_filename strHash
    match m.preview_file with
    | some pf =>
        if fs.fileExists pf then
          if fs.fileSize pf > 1000 then
            ⟨PResult.ok pf,
              { m with preview_status := "ready", has_pending_changes := false },
              false, []⟩
          else
            runEncodePhase preview_file
              { m with preview_file := none, preview_status := "none" } enc [pf]
        else runEncodePhase preview_file m enc []
    | none => runEncodePhase preview_file m enc []

/-- Abort handling inside the per-item loop of
`ProcessingWorker.process_all_clips` (source lines 965-981): terminate
the subprocess, unlink the partial `temp_preview` when present, unlink
every intermediate collected so far, and return "Aborted".  The pair is
the result together with the unlinked files. -/
def processAllClipsOnAbort (temp_preview : String) (valid_files : List String)
    (fs : Fs) : PResult × List String :=
  (PResult.aborted,
    (if fs.fileExists temp_preview then [temp_preview] else [])
      ++ valid_files.filter (fun f => fs.fileExists f))

/-!
Durations.  `process_all_clips` accumulates `total_duration` over the
item loop (source lines 839-850): the trimmed video length
`(end_time or duration) - start_time`, or the image display duration.
No division by the playback speed occurs anywhere in that loop.
-/

/-- Per-item duration added to `total_duration` by `process_all_clips`
(source lines 839-850). -/
def previewDurationOf (m : MediaItem) : ℚ :=
  if m.is_image then m.display_duration
  else ((pyOr m.end_time m.duration).getD 0) - m.start_time

/-- The `total_duration` accumulator of the `process_all_clips` item
loop, which starts at 0 and adds `previewDurationOf` for every item. -/
def processAllClipsTotalDuration (items : List MediaItem) : ℚ :=
  items.foldl (fun acc m => acc + previewDurationOf m) 0

/-!
Concatenation tiers.  The spec describes a three-tier compositor; the
code has two independent compositors.  `process_all_clips` (multi-clip
branch, source lines 1343-1665) runs the concat demuxer and, when its
output is missing or undersized, falls back directly to copying the
first valid intermediate.  `export_video` (source lines 1870-2193) runs
the concat demuxer and, when its output is missing or undersized, falls
back to a filter-graph re-encoding concat; when that also fails it
returns an error.  The Booleans are oracles for the respective output
checks (`os.path.exists ∧ getsize > 1000`, or `shutil.copy` success).
-/

/-- Concatenation strategies named after the three tiers of the spec. -/
inductive Tier where
  | tier1
  | tier2
  | tier3
deriving DecidableEq

/-- Terminal outcome of a composition stage. -/
inductive ComposeOutcome where
  | ok
  | err
deriving DecidableEq

/-- A composition stage run: which tiers spawned work, and the
outcome. -/
structure ComposeRun where
  tiers : List Tier
  outcome : ComposeOutcome
deriving DecidableEq

/-- Composition control flow of the multi-clip branch of
`process_all_clips` (source lines 1369-1665), music aside: Tier 1 concat
demuxer; if its output is valid at the final check (line 1639), succeed;
otherwise copy the first valid intermediate to a fallback file (the
Tier-3 single-file passthrough, lines 1651-1665), returning the original
first intermediate when even the copy fails, and an error only when that
file is gone too.  No filter-graph concat (Tier 2) exists on this
path. -/
def previewCompose (t1ok copyOk firstExists : Bool) : ComposeRun :=
  if t1ok then ⟨[Tier.tier1], ComposeOutcome.ok⟩
  else if copyOk then ⟨[Tier.tier1, Tier.tier3], ComposeOutcome.ok⟩
  else if firstExists then ⟨[Tier.tier1, Tier.tier3], ComposeOutcome.ok⟩
  else ⟨[Tier.tier1, Tier.tier3], ComposeOutcome.err⟩

/-- Composition control flow of `export_video` (source lines 1870-2193):
Tier 1 concat demuxer; if its output is invalid, the filter-graph
re-encoding concat (Tier 2, lines 2052-2148); if the final check (line
2187) still fails, return "Error: Failed to create output file".  No
single-file passthrough (Tier 3) exists on this path. -/
def exportCompose (t1ok t2ok : Bool) : ComposeRun :=
  if t1ok then ⟨[Tier.tier1], ComposeOutcome.ok⟩
  else if t2ok then ⟨[Tier.tier1, Tier.tier2], ComposeOutcome.ok⟩
  else ⟨[Tier.tier1, Tier.tier2], ComposeOutcome.err⟩

/-!
Audio mixing.  A music track travels through per-track audio filter
chains before being mixed.  The source has three distinct constructions:

* the export path (source lines 1950-1974) gives each track
  `volume`, then `atrim` when needed, then `adelay` for its
  start-in-compilation offset;
* the multi-clip preview path with two or more tracks (source lines
  1462-1479) builds the same chain per track;
* the multi-clip preview path with exactly one track (source lines
  1530-1532) uses the raw music file with no per-track filters at all,
  and the subsequent add step (lines 1546-1574) applies a hardcoded
  volume of 0.7 to the music input whenever `music_tracks` is nonempty;
* the single-valid-file preview path with two or more tracks (source
  lines 1059-1075) gives each track `volume`, then `atrim` when needed,
  then `aformat` — no `adelay` is ever emitted there.
-/

/-- `MusicTrack` state (source lines 2962-3009): constructor arguments;
`duration = none` models `None` before the probe-time default fills
it. -/
structure MusicTrack where
  file_path : String
  start_time_in_compilation : ℚ := 0
  start_time_in_track : ℚ := 0
  duration : Option ℚ := none
  volume : ℚ := 7/10
deriving DecidableEq

/-- One atomic audio filter applied to a music input. -/
inductive AFilter where
  /-- `volume=V`. -/
  | volume (v : ℚ)
  /-- `atrim=start=S` with an optional `:duration=D`. -/
  | atrim (s : ℚ) (d : Option ℚ)
  /-- `adelay=MS|MS`. -/
  | adelay (ms : Int)
  /-- `aformat=sample_fmts=fltp`. -/
  | aformat
deriving DecidableEq

/-- Python truthiness of the optional `track.duration` (`None` and `0.0`
are falsy), guarding both the `atrim` emission and its `:duration`
argument. -/
def durTruthy (d : Option ℚ) : Bool :=
  match d with
  | none => false
  | some x => x ≠ 0

/-- The `:duration=` argument actually emitted: present only when the
stored duration is truthy. -/
def durArg (d : Option ℚ) : Option ℚ :=
  if durTruthy d then d else none

/-- Per-track audio chain of the export path (source lines 1961-1974):
volume, trim when `start_time_in_track > 0` or the duration is truthy,
and a delay of `start_time_in_compilation` milliseconds when that offset
is positive. -/
def exportTrackChain (t : MusicTrack) : List AFilter :=
  let c := [AFilter.volume t.volume]
  let c := if t.start_time_in_track > 0 ∨ durTruthy t.duration then
      c ++ [AFilter.atrim t.start_time_in_track (durArg t.duration)] else c
  let c := if t.start_time_in_compilation > 0 then
      c ++ [AFilter.adelay (pyInt (t.start_time_in_compilation * 1000))] else c
  c

/-- Per-track audio chain of the multi-clip preview path when two or
more tracks are mixed (source lines 1462-1479): identical structure to
the export chain. -/
def previewMulticlipTrackChain (t : MusicTrack) : List AFilter :=
  let c := [AFilter.volume t.volume]
  let c := if t.start_time_in_track > 0 ∨ durTruthy t.duration then
      c ++ [AFilter.atrim t.start_time_in_track (durArg t.duration)] else c
  let c := if t.start_time_in_compilation > 0 then
      c ++ [AFilter.adelay (pyInt (t.start_time_in_compilation * 1000))] else c
  c

/-- Per-track audio chain of the single-valid-file preview path with
multiple tracks (source lines 1059-1075): volume, trim when needed, then
`aformat` — the start-in-compilation delay is never emitted on this
path. -/
def previewSingleFileTrackChain (t : MusicTrack) : List AFilter :=
  let c := [AFilter.volume t.volume]
  let c := if t.start_time_in_track > 0 ∨ durTruthy t.duration then
      c ++ [AFilter.atrim t.start_time_in_track (durArg t.duration)] else c
  c ++ [AFilter.aformat]

/-- Per-track chains actually built by the multi-clip preview path
(source lines 1439-1532): with two or more tracks each track gets
`previewMulticlipTrackChain`; with exactly one track the raw file is
used directly (`temp_music_file = self.music_tracks[0].file_path`), so
the single track receives an empty chain. -/
def previewMulticlipTrackChains (tracks : List MusicTrack) : List (List AFilter) :=
  if tracks.length > 1 then tracks.map previewMulticlipTrackChain
  else [[]]

/-- Volume applied to the music input of the final add step of the
multi-clip preview path (source lines 1546-1549): `music_volume` is
overridden by a hardcoded 0.7 whenever `music_tracks` is nonempty. -/
def previewAddStepVolume (tracks : List MusicTrack) (music_volume : ℚ) : ℚ :=
  if tracks ≠ [] then 7/10 else music_volume

/-- Predicate recognizing a timeline-delay filter. -/
def isAdelay (f : AFilter) : Bool :=
  match f with
  | AFilter.adelay _ => true
  | _ => false

/-- Rotation filter of the image branches: `rotate` when the manual
rotation is nonzero, nothing otherwise. -/
def imageRotationFilters (m : MediaItem) : List AtomFilter :=
  if m.manual_rotation ≠ 0 then [AtomFilter.rotateDeg m.manual_rotation] else []

/-!
Concrete fixtures used by witnesses and counterexamples.
-/

/-- A plain 10-second video clip with no edits. -/
def itemPlain : MediaItem :=
  { file_path := "clip.mp4", item_id := "abcd1234",
    duration := some 10, end_time := some 10 }

/-- The same clip with a grayscale visual filter. -/
def itemGray : MediaItem :=
  { itemPlain with
    effects := [{ effect_type := "filter", params := { name := some "grayscale" } }] }

/-- The same clip with a sepia visual filter instead. -/
def itemSepia : MediaItem :=
  { itemPlain with
    effects := [{ effect_type := "filter", params := { name := some "sepia" } }] }

/-- A clip trimmed to 6 seconds played at double speed. -/
def itemSpeed2 : MediaItem :=
  { file_path := "fast.mp4", item_id := "beef0001",
    duration := some 6, end_time := some 6, playback_speed := 2 }

/-- A clip whose embedded display-matrix rotation probes as 45 degrees. -/
def item45 : MediaItem :=
  { file_path := "tilted.mp4", item_id := "cafe0002",
    duration := some 10, end_time := some 10, rotation := 45 }

/-- Clips trimmed to 5, 3 and 4 seconds (Scenario A of the spec). -/
def itemA5 : MediaItem :=
  { file_path := "a.mp4", item_id := "aaaa0001", duration := some 9,
    start_time := 1, end_time := some 6 }

/-- Second Scenario A clip, trimmed to 3 seconds. -/
def itemB3 : MediaItem :=
  { file_path := "b.mp4", item_id := "bbbb0002", duration := some 8,
    end_time := some 3 }

/-- Third Scenario A clip, trimmed to 4 seconds. -/
def itemC4 : MediaItem :=
  { file_path := "c.mp4", item_id := "cccc0003", duration := some 4,
    end_time := some 4 }

/-- A filesystem oracle on which no file exists. -/
def fsEmpty : Fs := ⟨fun _ => false, fun _ => 0⟩

/-- A filesystem oracle on which every file exists with a healthy
size. -/
def fsAllBig : Fs := ⟨fun _ => true, fun _ => 50000⟩

/-- A filesystem oracle on which every file exists but is undersized. -/
def fsAllTiny : Fs := ⟨fun _ => true, fun _ => 12⟩

/-- An encoder run during which the abort flag is observed. -/
def encAborted : EncodeOutcome := ⟨true, 0, false, 0⟩

/-- A successful encoder run producing a healthy output. -/
def encSuccess : EncodeOutcome := ⟨false, 0, true, 40000⟩

/-- Scenario B music track: starts 2 seconds into the compilation at
half volume, duration left unset. -/
def trackB : MusicTrack :=
  { file_path := "music.mp3", start_time_in_compilation := 2, volume := 1/2 }

/-- A second music track used to exercise the multi-track paths. -/
def trackC : MusicTrack :=
  { file_path := "music2.mp3", start_time_in_compilation := 5,
    start_time_in_track := 1, duration := some 8, volume := 9/10 }

/-- A cached variant of `itemPlain` whose stored preview artifact is
`cached.mp4`. -/
def itemCached : MediaItem := { itemPlain with preview_file := some "cached.mp4" }

/-- A clip with a grayscale effect and an embedded 90-degree rotation,
used to exercise the filter ordering. -/
def itemFx90 : MediaItem :=
  { file_path := "fx.mp4", item_id := "fx000001", duration := some 10,
    end_time := some 10, rotation := 90,
    effects := [{ effect_type := "filter", params := { name := some "grayscale" } }] }

/-!
Helper lemmas shared by the claim theorems below.
-/

/-- Folding the duration accumulator equals adding the mapped sum. -/
theorem foldl_add_duration (l : List MediaItem) (acc : ℚ) :
    l.foldl (fun a m => a + previewDurationOf m) acc
      = acc + (l.map previewDurationOf).sum := by
  induction l generalizing acc with
  | nil => simp
  | cons x xs ih => simp [ih, add_assoc]

/-- The encode phase never unlinks anything beyond what it was handed:
its deletion trace is exactly the incoming list. -/
theorem runEncodePhase_deleted (p : String) (m : MediaItem) (enc : EncodeOutcome)
    (d : List String) : (runEncodePhase p m enc d).deleted = d := by
  unfold runEncodePhase
  cases createPreviewVf m with
  | error e => rfl
  | ok l => split_ifs <;> rfl

/-- When the filter chain builds successfully, the encode phase spawns
the encoder subprocess on every outcome. -/
theorem runEncodePhase_spawned (p : String) (m : MediaItem) (enc : EncodeOutcome)
    (d : List String) (l : List AtomFilter) (h : createPreviewVf m = Except.ok l) :
    (runEncodePhase p m enc d).spawned = true := by
  unfold runEncodePhase
  rw [h]
  split_ifs <;> rfl

/-- The filter chain does not depend on the cache-state fields
(`preview_file`, `preview_status`). -/
theorem createPreviewVf_cache_fields (m : MediaItem) (x : Option String) (s : String) :
    createPreviewVf { m with preview_file := x, preview_status := s } = createPreviewVf m := rfl

/-!
Claim theorems.
-/

/-- C1: a stored preview that exists on disk with size strictly above
1000 bytes is returned immediately by `create_preview` with no encoder
subprocess spawned; an artifact of size at most 1000 bytes is unlinked
and the item is re-encoded; and previewing an unchanged item twice in a
row spawns exactly one encoder subprocess across the two calls (the
first call encodes, the second is a cache hit). -/
theorem create_preview_cache_contract :
    (∀ (strHash : String → Nat) (m : MediaItem) (fs : Fs) (enc : EncodeOutcome)
        (pf : String),
        m.preview_file = some pf → fs.fileExists pf = true → 1000 < fs.fileSize pf →
          (create_preview strHash false m fs enc).result = PResult.ok pf
        ∧ (create_preview strHash false m fs enc).spawned = false)
  ∧ (∀ (strHash : String → Nat) (m : MediaItem) (fs : Fs) (enc : EncodeOutcome)
        (pf : String),
        m.preview_file = some pf → fs.fileExists pf = true → fs.fileSize pf ≤ 1000 →
          pf ∈ (create_preview strHash false m fs enc).deleted
        ∧ ∀ l, createPreviewVf m = Except.ok l →
            (create_preview strHash false m fs enc).spawned = true)
  ∧ (∀ (strHash : String → Nat) (m : MediaItem) (fs fs2 : Fs)
        (enc enc2 : EncodeOutcome) (l : List AtomFilter),
        m.preview_file = none → createPreviewVf m = Except.ok l →
        enc.abortDuringRun = false → enc.returncode = 0 →
        enc.outExists = true → 1000 < enc.outSize →
        fs2.fileExists (m.get_preview_filename strHash) = true →
        1000 < fs2.fileSize (m.get_preview_filename strHash) →
          (create_preview strHash false m fs enc).spawned = true
        ∧ (create_preview strHash false m fs enc).result
            = PResult.ok (m.get_preview_filename strHash)
        ∧ (create_preview strHash false
              (create_preview strHash false m fs enc).item fs2 enc2).spawned = false
        ∧ (create_preview strHash false
              (create_preview strHash false m fs enc).item fs2 enc2).result
            = PResult.ok (m.get_preview_filename strHash)) := by
  refine ⟨?_, ?_, ?_⟩
  · intro strHash m fs enc pf hpf hex hsz
    constructor <;> simp [create_preview, hpf, hex, hsz]
  · intro strHash m fs enc pf hpf hex hsz
    have hlt : ¬ (1000 < fs.fileSize pf) := not_lt.mpr hsz
    constructor
    · simp [create_preview, hpf, hex, hlt, runEncodePhase_deleted]
    · intro l hvf
      have hvf2 : createPreviewVf { m with preview_file := none, preview_status := "none" }
          = Except.ok l := by rw [createPreviewVf_cache_fields]; exact hvf
      simp [create_preview, hpf, hex, hlt,
        runEncodePhase_spawned _ _ enc _ l hvf2]
  · intro strHash m fs fs2 enc enc2 l hpf hvf hab hrc hex hsz hfs2 hfs2s
    have h1 : create_preview strHash false m fs enc
        = ⟨PResult.ok (m.get_preview_filename strHash),
           { m with preview_file := some (m.get_preview_filename strHash),
                    preview_status := "ready", has_pending_changes := false },
           true, []⟩ := by
      simp [create_preview, hpf, runEncodePhase, hvf, hab, hrc, hex, hsz]
    rw [h1]
    refine ⟨rfl, rfl, ?_, ?_⟩ <;>
      simp [create_preview, hfs2, hfs2s]

/-- C1 witness: the cache contract evaluated on concrete fixtures — a
cache hit, a corrupt-artifact deletion, and an encode-then-hit pair
spawning exactly one subprocess. -/
theorem create_preview_cache_contract_witness :
    ((create_preview String.length false itemCached fsAllBig encSuccess).result
        = PResult.ok "cached.mp4"
    ∧ (create_preview String.length false itemCached fsAllBig encSuccess).spawned = false)
  ∧ "cached.mp4" ∈ (create_preview String.length false itemCached fsAllTiny encSuccess).deleted
  ∧ ((create_preview String.length false itemPlain fsEmpty encSuccess).spawned = true
    ∧ (create_preview String.length false
        (create_preview String.length false itemPlain fsEmpty encSuccess).item
        fsAllBig encSuccess).spawned = false) := by
  have hpart3 := create_preview_cache_contract.2.2 String.length itemPlain fsEmpty fsAllBig
    encSuccess encSuccess [AtomFilter.scaleW 480, AtomFilter.fps 24]
    rfl rfl rfl rfl rfl (by decide) rfl (by decide)
  exact ⟨create_preview_cache_contract.1 String.length itemCached fsAllBig encSuccess
      "cached.mp4" rfl rfl (by decide),
    (create_preview_cache_contract.2.1 String.length itemCached fsAllTiny encSuccess
      "cached.mp4" rfl rfl (by decide)).1,
    hpart3.1, hpart3.2.2.1⟩

/-- C2 counterexample: when the Tier-1 concat demuxer output is invalid
and the fallbacks fail, the preview compositor reports a terminal error
without ever attempting the Tier-2 filter-graph concat, and the export
compositor reports a terminal error without ever attempting the Tier-3
single-file passthrough — so the claimed escalation through all three
tiers in both paths is false. -/
theorem compose_tier_counterexample :
    (previewCompose false false false).outcome = ComposeOutcome.err
  ∧ Tier.tier2 ∉ (previewCompose false false false).tiers
  ∧ (exportCompose false false).outcome = ComposeOutcome.err
  ∧ Tier.tier3 ∉ (exportCompose false false).tiers := by
  refine ⟨rfl, by decide, rfl, by decide⟩

/-- C2 (amended): a Tier-1 failure escalates automatically without
caller intervention — in the export path to the Tier-2 filter-graph
re-encoding concat, with a terminal error only when Tier 2 also fails,
and in the preview path directly to the Tier-3 copy of the first valid
intermediate, with a terminal error only when both the copy and the
raw-first-file fallback fail.  Neither path runs the tier the other one
has. -/
theorem compose_fallback_escalation (t1ok t2ok copyOk firstExists : Bool) :
    (t1ok = false → Tier.tier2 ∈ (exportCompose t1ok t2ok).tiers)
  ∧ ((exportCompose t1ok t2ok).outcome = ComposeOutcome.err →
      t1ok = false ∧ t2ok = false)
  ∧ (t1ok = false → Tier.tier3 ∈ (previewCompose t1ok copyOk firstExists).tiers)
  ∧ ((previewCompose t1ok copyOk firstExists).outcome = ComposeOutcome.err →
      t1ok = false ∧ copyOk = false ∧ firstExists = false) := by
  cases t1ok <;> cases t2ok <;> cases copyOk <;> cases firstExists <;> decide

/-- C2 witness: a failed Tier 1 makes the export path attempt Tier 2 and
the preview path attempt Tier 3. -/
theorem compose_fallback_escalation_witness :
    Tier.tier2 ∈ (exportCompose false true).tiers
  ∧ Tier.tier3 ∈ (previewCompose false true true).tiers :=
  ⟨(compose_fallback_escalation false true true true).1 rfl,
   (compose_fallback_escalation false true true true).2.2.1 rfl⟩

/-- C3 counterexample: when the abort flag is observed during a
`create_preview` encode, the call returns Aborted but unlinks nothing —
the partial output file at the preview path is left behind, so the
claimed deletion of partial output in the single-item path is false. -/
theorem cancellation_counterexample :
    (create_preview String.length false itemPlain fsEmpty encAborted).result
      = PResult.aborted
  ∧ (create_preview String.length false itemPlain fsEmpty encAborted).deleted = [] := by
  constructor <;> rfl

/-- C3 (amended): observing the cancellation flag terminates the active
subprocess and yields the tagged Aborted result (not an Error) in both
paths, and the multi-item path (`process_all_clips`) unlinks the partial
output and every intermediate produced so far; but the single-item path
(`create_preview`) performs no deletion at all, leaving its partial
output file behind. -/
theorem cancellation_cleanup :
    (∀ (strHash : String → Nat) (m : MediaItem) (fs : Fs) (enc : EncodeOutcome)
        (l : List AtomFilter),
        m.preview_file = none → createPreviewVf m = Except.ok l →
        enc.abortDuringRun = true →
          (create_preview strHash false m fs enc).result = PResult.aborted
        ∧ (create_preview strHash false m fs enc).spawned = true
        ∧ (create_preview strHash false m fs enc).deleted = [])
  ∧ (∀ (tp : String) (vfs : List String) (fs : Fs),
        (processAllClipsOnAbort tp vfs fs).1 = PResult.aborted
      ∧ (fs.fileExists tp = true → tp ∈ (processAllClipsOnAbort tp vfs fs).2)
      ∧ (∀ f ∈ vfs, fs.fileExists f = true → f ∈ (processAllClipsOnAbort tp vfs fs).2)) := by
  constructor
  · intro strHash m fs enc l hpf hvf hab
    refine ⟨?_, ?_, ?_⟩ <;> simp [create_preview, hpf, runEncodePhase, hvf, hab]
  · intro tp vfs fs
    refine ⟨rfl, ?_, ?_⟩
    · intro h
      simp [processAllClipsOnAbort, h]
    · intro f hf hex
      simp [processAllClipsOnAbort, List.mem_filter, hf, hex]

/-- C3 witness: an aborted single-item encode had spawned its
subprocess, and the multi-item abort handler unlinks both the partial
output and an existing intermediate. -/
theorem cancellation_cleanup_witness :
    (create_preview String.length false itemPlain fsEmpty encAborted).spawned = true
  ∧ "part.mp4" ∈ (processAllClipsOnAbort "part.mp4" ["i0.mp4"] fsAllBig).2
  ∧ "i0.mp4" ∈ (processAllClipsOnAbort "part.mp4" ["i0.mp4"] fsAllBig).2 := by
  refine ⟨(cancellation_cleanup.1 String.length itemPlain fsEmpty encAborted
      [AtomFilter.scaleW 480, AtomFilter.fps 24] rfl rfl rfl).2.1,
    (cancellation_cleanup.2 "part.mp4" ["i0.mp4"] fsAllBig).2.1 rfl,
    (cancellation_cleanup.2 "part.mp4" ["i0.mp4"] fsAllBig).2.2 "i0.mp4" (by decide) rfl⟩

/-- C4 counterexample: two states of the same item that differ in their
effects — a grayscale filter versus a sepia filter — receive the same
cache signature, because the filename hashes only the effect type tags
("filter" in both cases), never the effect parameters.  This falsifies
the claimed "differ in effects implies distinct signatures" direction
for every choice of the hash function, since the hashed strings are
identical. -/
theorem signature_effect_params_counterexample :
    itemGray.effects ≠ itemSepia.effects
  ∧ itemGray.get_preview_filename String.length
      = itemSepia.get_preview_filename String.length := by
  constructor
  · decide
  · simp [MediaItem.get_preview_filename, itemGray, itemSepia, itemPlain]

/-- C4 (amended): the signature is a function of the source path, kind,
item id, trim start, the resolved end (Python `end_time or duration`),
manual rotation, display duration, the list of effect *types*, and the
playback speed truncated to hundredths — two states agreeing on those
always receive the same signature; but states differing only in effect
parameters (or other fields outside this list) can share a signature, so
"changes iff one of start/end/rotation/speed/effects changes" fails in
the distinctness direction. -/
theorem signature_stability (strHash : String → Nat) (a b : MediaItem)
    (h1 : a.file_path = b.file_path) (h2 : a.is_image = b.is_image)
    (h3 : a.item_id = b.item_id) (h4 : a.start_time = b.start_time)
    (h5 : pyOr a.end_time a.duration = pyOr b.end_time b.duration)
    (h6 : a.manual_rotation = b.manual_rotation)
    (h7 : a.display_duration = b.display_duration)
    (h8 : a.effects.map (fun e => e.effect_type) = b.effects.map (fun e => e.effect_type))
    (h9 : pyInt (a.playback_speed * 100) = pyInt (b.playback_speed * 100)) :
    a.get_preview_filename strHash = b.get_preview_filename strHash := by
  by_cases ha : a.effects = []
  · have hb : b.effects = [] := by
      have := h8
      rw [ha] at this
      simpa using this.symm
    simp [MediaItem.get_preview_filename, ha, hb, h1, h2, h3, h4, h5, h6, h7, h9]
  · have hb : b.effects ≠ [] := by
      intro hb0
      apply ha
      rw [hb0] at h8
      simpa using h8
    simp [MediaItem.get_preview_filename, ha, hb, h1, h2, h3, h4, h5, h6, h7, h8, h9]

/-- C4 witness: the stability theorem applied to the concrete
grayscale/sepia pair, whose signature-relevant fields all agree. -/
theorem signature_stability_witness :
    itemGray.get_preview_filename String.length
      = itemSepia.get_preview_filename String.length :=
  signature_stability String.length itemGray itemSepia rfl rfl rfl rfl rfl rfl rfl rfl rfl

/-- C5: for every speed factor other than 1, the generated speed filter
remaps video time by the inverse of the factor and sets the audio tempo
to the factor clamped to the interval from one half to 2; an item whose
`playback_speed` is the factor and that has no explicit effects receives
exactly this chain.  Saturation is expressed in the filter value, not as
an error. -/
theorem speed_filter_clamp (f : ℚ) (hf : f ≠ 1) :
    VideoEffect.get_ffmpeg_filter { effect_type := "speed", params := { factor := some f } }
        = [AtomFilter.setpts (1 / f), AtomFilter.atempo (max (1/2) (min 2 f))]
    ∧ ∀ m : MediaItem, m.effects = [] → m.playback_speed = f →
        m.get_effects_filter_string
          = [AtomFilter.setpts (1 / f), AtomFilter.atempo (max (1/2) (min 2 f))] := by
  have hmain : VideoEffect.get_ffmpeg_filter
        { effect_type := "speed", params := { factor := some f } }
      = [AtomFilter.setpts (1 / f), AtomFilter.atempo (max (1/2) (min 2 f))] := by
    rcases lt_or_gt_of_ne hf with hlt | hgt
    · have h1 : ¬ ((f : ℚ) > 1) := by linarith
      have hmin : min (2:ℚ) f = f := min_eq_right (by linarith)
      simp [VideoEffect.get_ffmpeg_filter, hf, h1, hmin]
    · have hmax : max (2⁻¹ : ℚ) (min 2 f) = min 2 f :=
        max_eq_right (le_min (by norm_num) (by linarith))
      simp [VideoEffect.get_ffmpeg_filter, hf, hgt, hmax]
  refine ⟨hmain, ?_⟩
  intro m he hs
  unfold MediaItem.get_effects_filter_string
  simp [he, hs, hf, hmain]

/-- C5 witness (Scenario C): factor 3 yields a time remap by one third
and an audio tempo saturated at 2. -/
theorem speed_filter_clamp_witness :
    VideoEffect.get_ffmpeg_filter { effect_type := "speed", params := { factor := some 3 } }
      = [AtomFilter.setpts (1/3), AtomFilter.atempo 2] := by
  have h := (speed_filter_clamp 3 (by norm_num)).1
  rw [h]
  norm_num

/-- C6 counterexample: a single clip trimmed to 6 seconds at playback
speed 2 contributes 6 to `total_duration`, while its effective
post-speed duration is 3 — off by far more than the stated half-second
per-item tolerance, because the accumulator never divides by the speed
factor. -/
theorem total_duration_counterexample :
    processAllClipsTotalDuration [itemSpeed2] = 6
  ∧ previewDurationOf itemSpeed2 / itemSpeed2.playback_speed = 3
  ∧ ¬ (|processAllClipsTotalDuration [itemSpeed2]
        - previewDurationOf itemSpeed2 / itemSpeed2.playback_speed| ≤ 1/2) := by
  have h1 : processAllClipsTotalDuration [itemSpeed2] = 6 := by
    simp [processAllClipsTotalDuration, previewDurationOf, itemSpeed2, pyOr]
  have h2 : previewDurationOf itemSpeed2 / itemSpeed2.playback_speed = 3 := by
    simp [previewDurationOf, itemSpeed2, pyOr]
    norm_num
  refine ⟨h1, h2, ?_⟩
  rw [h1, h2]
  norm_num

/-- C6 (amended): the total duration returned by the preview pipeline is
exactly the sum of each item's trimmed (pre-speed) duration — the
trimmed video length or image display duration, with no division by the
playback speed; it agrees with the claimed post-speed sum precisely when
every item plays at speed 1, as in Scenario A. -/
theorem total_duration_sum (items : List MediaItem) :
    processAllClipsTotalDuration items = (items.map previewDurationOf).sum
  ∧ ((∀ m ∈ items, m.playback_speed = 1) →
      processAllClipsTotalDuration items
        = (items.map (fun m => previewDurationOf m / m.playback_speed)).sum) := by
  have h1 : processAllClipsTotalDuration items = (items.map previewDurationOf).sum := by
    unfold processAllClipsTotalDuration
    simpa using foldl_add_duration items 0
  refine ⟨h1, fun hs => ?_⟩
  rw [h1]
  congr 1
  apply List.map_congr_left
  intro m hm
  rw [hs m hm, div_one]

/-- C6 witness (Scenario A): clips trimmed to 5, 3 and 4 seconds at
speed 1 total exactly 12 seconds, which also equals the post-speed
sum. -/
theorem total_duration_sum_witness :
    processAllClipsTotalDuration [itemA5, itemB3, itemC4]
      = (([itemA5, itemB3, itemC4]).map
          (fun m => previewDurationOf m / m.playback_speed)).sum
  ∧ processAllClipsTotalDuration [itemA5, itemB3, itemC4] = 12 := by
  constructor
  · apply (total_duration_sum [itemA5, itemB3, itemC4]).2
    intro m hm
    fin_cases hm <;> rfl
  · simp [processAllClipsTotalDuration, previewDurationOf, itemA5, itemB3, itemC4, pyOr]
    norm_num

/-- C7: in every encoding path the per-item filter chain is ordered with
the effect filters first, then the rotation filter, then the scale and
frame-rate normalization; for video items this needs the total rotation
to resolve (otherwise the preview/export builders raise instead of
producing a chain, see C10). -/
theorem filter_order_invariant (m : MediaItem) :
    (m.is_image = true →
        createPreviewImageVf m
          = m.get_effects_filter_string ++ imageRotationFilters m ++ [AtomFilter.scaleW 480]
      ∧ processAllClipsImageVf m
          = m.get_effects_filter_string ++ imageRotationFilters m
              ++ [AtomFilter.scaleW 480, AtomFilter.fps 24]
      ∧ exportImageVf m
          = m.get_effects_filter_string ++ imageRotationFilters m ++ [AtomFilter.scaleH 720])
  ∧ (m.is_image = false → totalRotation m ∈ ([0, 90, 180, 270] : List Int) →
        createPreviewVideoVf m
          = Except.ok (m.get_effects_filter_string
              ++ rotationFiltersDefaulted (totalRotation m)
              ++ [AtomFilter.scaleW 480, AtomFilter.fps 24])
      ∧ processAllClipsVideoVf m
          = m.get_effects_filter_string ++ rotationFiltersDefaulted (totalRotation m)
              ++ [AtomFilter.scaleW 480, AtomFilter.fps 24]
      ∧ exportVideoVf m
          = Except.ok (m.get_effects_filter_string
              ++ rotationFiltersDefaulted (totalRotation m) ++ [AtomFilter.scaleH 720])) := by
  constructor
  · intro _
    by_cases he : m.get_effects_filter_string = [] <;>
      by_cases hr : m.manual_rotation = 0 <;>
        simp [createPreviewImageVf, processAllClipsImageVf, exportImageVf,
          imageRotationFilters, he, hr]
  · intro _ hmem
    simp only [List.mem_cons, List.not_mem_nil, or_false] at hmem
    have hrot : rotationFilters (totalRotation m)
        = Except.ok (rotationFiltersDefaulted (totalRotation m)) := by
      rcases hmem with h | h | h | h <;>
        simp [rotationFilters, rotationFiltersDefaulted, h]
    by_cases he : m.get_effects_filter_string = [] <;>
      simp [createPreviewVideoVf, processAllClipsVideoVf, exportVideoVf, hrot,
        he, rotationFiltersDefaulted]

/-- C7 witness: a clip with a grayscale effect and a 90-degree embedded
rotation gets effects, then rotation, then scale/fps in the single-item
preview path. -/
theorem filter_order_invariant_witness :
    createPreviewVideoVf itemFx90
      = Except.ok (itemFx90.get_effects_filter_string
          ++ rotationFiltersDefaulted (totalRotation itemFx90)
          ++ [AtomFilter.scaleW 480, AtomFilter.fps 24]) :=
  ((filter_order_invariant itemFx90).2 rfl (by decide)).1

/-- C8: the total rotation is the sum of embedded and manual rotation
modulo 360; a total of 0 (in particular an exact sum of 360) adds no
rotation filter, 90 adds a single clockwise transpose, 180 adds
transpose twice, and 270 adds a single transpose in the opposite
sense. -/
theorem rotation_resolution (m : MediaItem) :
    totalRotation m = (m.rotation + m.manual_rotation) % 360
  ∧ (totalRotation m = 0 → rotationFilters (totalRotation m) = Except.ok [])
  ∧ (totalRotation m = 90 →
      rotationFilters (totalRotation m) = Except.ok [AtomFilter.transpose 1])
  ∧ (totalRotation m = 180 →
      rotationFilters (totalRotation m)
        = Except.ok [AtomFilter.transpose 2, AtomFilter.transpose 2])
  ∧ (totalRotation m = 270 →
      rotationFilters (totalRotation m) = Except.ok [AtomFilter.transpose 2])
  ∧ (m.rotation + m.manual_rotation = 360 →
      rotationFilters (totalRotation m) = Except.ok []) := by
  refine ⟨rfl, ?_, ?_, ?_, ?_, ?_⟩ <;> intro h
  · simp [rotationFilters, h]
  · simp [rotationFilters, h]
  · simp [rotationFilters, h]
  · simp [rotationFilters, h]
  · have : totalRotation m = 0 := by
      unfold totalRotation
      rw [h]
      decide
    simp [rotationFilters, this]

/-- C8 witness: embedded 270 plus manual 90 sums to 360 and adds no
rotation filter. -/
theorem rotation_resolution_witness :
    rotationFilters (totalRotation
      { file_path := "x.mp4", rotation := 270, manual_rotation := 90 : MediaItem })
      = Except.ok [] :=
  (rotation_resolution _).2.2.2.2.2 (by decide)

/-- C9 counterexample (Scenario B configuration): a single music track
starting 2 seconds into the compilation at volume one half goes through
the multi-clip preview path with an empty per-track filter chain — no
volume gain, no trim, no timeline delay — and the add step applies a
hardcoded 0.7 gain instead of the track's configured 0.5; the
single-valid-file path never emits a timeline delay either.  This
falsifies "every track in every mixing path gets volume, trim and
delay". -/
theorem music_mix_counterexample :
    previewMulticlipTrackChains [trackB] = [[]]
  ∧ trackB.volume = 1/2
  ∧ trackB.start_time_in_compilation = 2
  ∧ previewAddStepVolume [trackB] (7/10) ≠ trackB.volume
  ∧ (previewSingleFileTrackChain trackB).any isAdelay = false := by
  refine ⟨rfl, rfl, rfl, ?_, ?_⟩
  · simp [previewAddStepVolume, trackB]
    norm_num
  · simp [previewSingleFileTrackChain, durTruthy, trackB, isAdelay]

/-- C9 (amended): per-track volume gain, trim and timeline delay are
applied in the export mixing path, and in the multi-clip preview path
when two or more tracks are mixed; but the multi-clip preview path with
exactly one track uses the raw file with no per-track filters, and the
single-valid-file preview path applies volume and trim but never the
timeline delay. -/
theorem music_mix_paths (t : MusicTrack) :
    exportTrackChain t
      = [AFilter.volume t.volume]
          ++ (if t.start_time_in_track > 0 ∨ durTruthy t.duration then
                [AFilter.atrim t.start_time_in_track (durArg t.duration)] else [])
          ++ (if t.start_time_in_compilation > 0 then
                [AFilter.adelay (pyInt (t.start_time_in_compilation * 1000))] else [])
  ∧ previewMulticlipTrackChain t = exportTrackChain t
  ∧ (previewSingleFileTrackChain t).any isAdelay = false
  ∧ previewMulticlipTrackChains [t] = [[]]
  ∧ ∀ ts : List MusicTrack, ts.length > 1 →
      previewMulticlipTrackChains ts = ts.map previewMulticlipTrackChain := by
  refine ⟨?_, rfl, ?_, rfl, ?_⟩
  · unfold exportTrackChain
    split_ifs <;> simp
  · unfold previewSingleFileTrackChain
    split_ifs <;> simp [isAdelay]
  · intro ts h
    simp [previewMulticlipTrackChains, h]

/-- C9 witness: a track with offsets and a capped duration receives
volume, trim and delay in the export path, and a two-track list goes
through the per-track chains in the multi-clip preview path. -/
theorem music_mix_paths_witness :
    exportTrackChain trackC
      = [AFilter.volume trackC.volume]
          ++ [AFilter.atrim trackC.start_time_in_track (durArg trackC.duration)]
          ++ [AFilter.adelay (pyInt (trackC.start_time_in_compilation * 1000))]
  ∧ previewMulticlipTrackChains [trackB, trackC]
      = [previewMulticlipTrackChain trackB, previewMulticlipTrackChain trackC] := by
  constructor
  · have h := (music_mix_paths trackC).1
    rw [h]
    norm_num [trackC, durTruthy]
  · have h := (music_mix_paths trackC).2.2.2.2 [trackB, trackC] (by decide)
    simpa using h

/-- C10: for a video item whose total rotation is nonzero but not 90,
180 or 270 (for example an embedded 45-degree display-matrix rotation),
the `create_preview` and `export_video` filter builders read
`rotation_filter` before any branch assigns it; the resulting exception
is caught at the worker boundary, so the call yields a tagged Error
without spawning the encoder, while `process_all_clips` initializes the
variable and silently encodes the item with no rotation filter. -/
theorem unbound_rotation_filter_behavior
    (strHash : String → Nat) (m : MediaItem) (fs : Fs) (enc : EncodeOutcome)
    (himg : m.is_image = false) (hpf : m.preview_file = none)
    (h0 : totalRotation m ≠ 0) (h90 : totalRotation m ≠ 90)
    (h180 : totalRotation m ≠ 180) (h270 : totalRotation m ≠ 270) :
    createPreviewVideoVf m = Except.error "NameError: rotation_filter is not defined"
  ∧ (create_preview strHash false m fs enc).result
      = PResult.error "NameError: rotation_filter is not defined"
  ∧ (create_preview strHash false m fs enc).spawned = false
  ∧ exportVideoVf m = Except.error "NameError: rotation_filter is not defined"
  ∧ processAllClipsVideoVf m
      = m.get_effects_filter_string ++ [AtomFilter.scaleW 480, AtomFilter.fps 24] := by
  have hrf : rotationFilters (totalRotation m)
      = Except.error "NameError: rotation_filter is not defined" := by
    simp [rotationFilters, h0, h90, h180, h270]
  have hcp : createPreviewVideoVf m
      = Except.error "NameError: rotation_filter is not defined" := by
    simp [createPreviewVideoVf, hrf]
  have hvf : createPreviewVf m
      = Except.error "NameError: rotation_filter is not defined" := by
    simp [createPreviewVf, himg, hcp]
  have hrd : rotationFiltersDefaulted (totalRotation m) = [] := by
    simp [rotationFiltersDefaulted, h0, h90, h180, h270]
  refine ⟨hcp, ?_, ?_, ?_, ?_⟩
  · simp [create_preview, hpf, runEncodePhase, hvf]
  · simp [create_preview, hpf, runEncodePhase, hvf]
  · simp [exportVideoVf, hrf]
  · by_cases he : m.get_effects_filter_string = [] <;>
      simp [processAllClipsVideoVf, hrd, he]

/-- C10 witness: the 45-degree clip yields a tagged Error from the
single-item preview worker and a rotation-free chain from the preview-all
builder. -/
theorem unbound_rotation_filter_behavior_witness :
    (create_preview String.length false item45 fsEmpty encSuccess).result
      = PResult.error "NameError: rotation_filter is not defined"
  ∧ processAllClipsVideoVf item45
      = item45.get_effects_filter_string ++ [AtomFilter.scaleW 480, AtomFilter.fps 24] := by
  have h := unbound_rotation_filter_behavior String.length item45 fsEmpty encSuccess
    rfl rfl (by decide) (by decide) (by decide) (by decide)
  exact ⟨h.2.1, h.2.2.2.2⟩
